import Mathlib

/-!
Verification of the storage core of a multi-account messaging client
(per-account SQLite wrapper, schema migrations, key-value config store,
blob-directory housekeeping, and the multi-account registry).

Each section is a shallow embedding of one component of the Rust source:

* `ConfigStore`  — `Sql::set_raw_config` / `get_raw_config` and the typed
  accessors (`src/sql/mod.rs`).
* `RowId`        — `Sql::get_rowid` / `get_rowid2` (`src/sql/mod.rs`).
* `Registry`     — the `Config` account registry and `Accounts::import_account`
  (`src/accounts.rs`).
* `Emitter`      — the merged `EventEmitter::recv_poll` (`src/accounts.rs`).
* `Housekeeping` — the blob-directory sweep and `is_file_in_use`
  (`src/sql/mod.rs`).
* `OpenModel`    — the open/close state machine of `Sql::open` / `open2`
  (`src/sql/mod.rs`).
* `Migrations`   — the schema migration runner (`src/sql/migrations.rs`).

Databases, channels and the filesystem are modelled as explicit data;
fallible operations return `Except`.  All definitions are executable.
-/

namespace ConfigStore

/-- Error cases of the SQL layer relevant to the config store
(`Error::SqlNoConnection` in `src/error.rs`). -/
inductive CfgErr
  | noConnection
  deriving DecidableEq, Repr

/-- The state of one `Sql` handle as seen by the config store: whether a pool
is attached (`is_open`) and the rows of the `config(keyname, value)` table in
insertion order. -/
structure SqlState where
  is_open : Bool
  config : List (String × String)
  deriving DecidableEq, Repr

/-- The check-then-act write of `Sql::set_raw_config` for a present value:
`UPDATE` the row(s) with this key if one exists (`SELECT COUNT(*) ... > 0`),
else `INSERT` a new row. -/
def upsert (l : List (String × String)) (key v : String) : List (String × String) :=
  if l.any (fun p => p.1 == key) then
    l.map (fun p => if p.1 == key then (p.1, v) else p)
  else l ++ [(key, v)]

/-- Model of `Sql::set_raw_config`: fails with `SqlNoConnection` on a closed handle;
`value = none` deletes the key; otherwise the check-then-act upsert. -/
def set_raw_config (s : SqlState) (key : String) (value : Option String) :
    Except CfgErr SqlState :=
  if !s.is_open then .error .noConnection
  else
    match value with
    | some v => .ok { s with config := upsert s.config key v }
    | none => .ok { s with config := s.config.filter (fun p => !(p.1 == key)) }

/-- Model of `Sql::get_raw_config`: errors with `SqlNoConnection` when the handle is
closed *or the key is empty*; otherwise returns the value of the first row
with this key (`SELECT value FROM config WHERE keyname=?`, zero-or-one row). -/
def get_raw_config (s : SqlState) (key : String) : Except CfgErr (Option String) :=
  if !s.is_open || key.isEmpty then .error .noConnection
  else .ok ((s.config.find? (fun p => p.1 == key)).map (·.2))

/-- Rust `str::parse::<i32>().ok()`: best-effort decimal parse with the i32
range check (sign-prefix corner cases of Rust's parser are irrelevant to the
claims and not modelled further). -/
def parse_i32 (str : String) : Option Int :=
  match str.toInt? with
  | some v => if -(2 ^ 31) ≤ v && v < 2 ^ 31 then some v else none
  | none => none

/-- Rust `str::parse::<i64>().ok()`. -/
def parse_i64 (str : String) : Option Int :=
  match str.toInt? with
  | some v => if -(2 ^ 63) ≤ v && v < 2 ^ 63 then some v else none
  | none => none

/-- Model of `Sql::get_raw_config_int`. -/
def get_raw_config_int (s : SqlState) (key : String) : Except CfgErr (Option Int) :=
  (get_raw_config s key).map (fun o => o.bind parse_i32)

/-- Model of `Sql::get_raw_config_int64`. -/
def get_raw_config_int64 (s : SqlState) (key : String) : Except CfgErr (Option Int) :=
  (get_raw_config s key).map (fun o => o.bind parse_i64)

/-- Model of `Sql::get_raw_config_bool`: `res.unwrap_or_default() > 0`. -/
def get_raw_config_bool (s : SqlState) (key : String) : Except CfgErr Bool :=
  match get_raw_config_int s key with
  | .error e => .error e
  | .ok res => .ok (decide (0 < res.getD 0))

/-- Model of `Sql::set_raw_config_bool`: `true` is stored as the string "1", `false`
deletes the key. -/
def set_raw_config_bool (s : SqlState) (key : String) (value : Bool) :
    Except CfgErr SqlState :=
  set_raw_config s key (if value then some "1" else none)

/-- Model of `Sql::set_raw_config_int`. -/
def set_raw_config_int (s : SqlState) (key : String) (value : Int) :
    Except CfgErr SqlState :=
  set_raw_config s key (some (toString value))

end ConfigStore

namespace RowId

/-- Error cases of the SQL layer relevant to row-id lookup. -/
inductive SqlErr
  | noConnection
  deriving DecidableEq, Repr

/-- A row of a table queried by `Sql::get_rowid`: an autoincrement `id` and
the text column compared against the lookup value. -/
structure RowStr where
  id : Int
  field : String
  deriving DecidableEq, Repr

/-- A row of a table queried by `Sql::get_rowid2`: an `id` and the two integer
columns compared against the lookup values. -/
structure RowInt2 where
  id : Int
  field : Int
  field2 : Int
  deriving DecidableEq, Repr

/-- The query of `Sql::get_rowid` (select the ids matching one equality
predicate, descending by id) followed by
`fetch_optional` (first row) and `unwrap_or_default()`.  The `ORDER BY id
DESC` is modelled by sorting the matching ids descendingly and taking the
head. -/
def rowid_val (table : List RowStr) (value : String) : Int :=
  ((((table.filter (fun r => r.field == value)).map (fun r => r.id)).insertionSort
    (fun a b => b ≤ a)).head?).getD 0

/-- Model of `Sql::get_rowid`: requires an open pool, then runs the
descending query. -/
def get_rowid (is_open : Bool) (table : List RowStr) (value : String) :
    Except SqlErr Int :=
  if is_open then .ok (rowid_val table value) else .error .noConnection

/-- The query of `Sql::get_rowid2` (select the ids matching two equality
predicates, descending by id) followed by `fetch_optional` and
`unwrap_or_default()`. -/
def rowid2_val (table : List RowInt2) (value value2 : Int) : Int :=
  ((((table.filter (fun r => r.field == value && r.field2 == value2)).map
    (fun r => r.id)).insertionSort (fun a b => b ≤ a)).head?).getD 0

/-- Model of `Sql::get_rowid2`. -/
def get_rowid2 (is_open : Bool) (table : List RowInt2) (value value2 : Int) :
    Except SqlErr Int :=
  if is_open then .ok (rowid2_val table value value2) else .error .noConnection

end RowId

namespace Registry

/-- An entry of the persisted account list.  The source's `AccountConfig`
also carries a display name, a per-account directory and a random UUID; none
of these enter the registry invariants, so only the `id` is modelled. -/
structure AccountEntry where
  id : Nat
  deriving DecidableEq, Repr

/-- Model of `InnerConfig`: the persisted registry state (`accounts.toml` mirror). -/
structure InnerConfig where
  selected_account : Nat
  next_id : Nat
  accounts : List AccountEntry
  deriving DecidableEq, Repr

/-- Registry-level errors (`ensure!` failures become `Error::Message`). -/
inductive RegErr
  | invalidId (id : Nat)
  | restoreFailed
  deriving DecidableEq, Repr

/-- Model of `Config::new`: empty account list, selection 0, next id 0. -/
def initConfig : InnerConfig :=
  { selected_account := 0, next_id := 0, accounts := [] }

/-- Model of `Config::select_account`: fails unless some account has the given id,
otherwise sets the selection. -/
def select_account (c : InnerConfig) (id : Nat) : Except RegErr InnerConfig :=
  if c.accounts.any (fun e => e.id == id) then
    .ok { c with selected_account := id }
  else
    .error (.invalidId id)

/-- Model of `Config::new_account`: assigns `next_id`, appends the entry, increments
`next_id`, then selects the new account (the source `expect`s this select; it
cannot fail because the id was just added, and the model keeps the state
unchanged on the impossible branch). -/
def new_account (c : InnerConfig) : Nat × InnerConfig :=
  let id := c.next_id
  let c1 := { c with
    accounts := c.accounts ++ [{ id := id }],
    next_id := c.next_id + 1 }
  match select_account c1 id with
  | .ok c2 => (id, c2)
  | .error _ => (id, c1)

/-- Model of `Config::remove_account`: drops the first entry with the given id (if
any); if the removed id was selected, selection falls back to the first
remaining account or to 0. -/
def remove_account (c : InnerConfig) (id : Nat) : InnerConfig :=
  let c1 := { c with accounts := c.accounts.eraseP (fun e => e.id == id) }
  if c1.selected_account = id then
    { c1 with selected_account := ((c1.accounts.head?).map (fun e => e.id)).getD 0 }
  else c1

/-- The three registry mutations of claim C3. -/
inductive RegOp
  | newAccount
  | removeAccount (id : Nat)
  | selectAccount (id : Nat)
  deriving DecidableEq, Repr

/-- One mutation applied to the registry state (a failed `select_account`
leaves the state unchanged). -/
def regStep (c : InnerConfig) (op : RegOp) : InnerConfig :=
  match op with
  | .newAccount => (new_account c).2
  | .removeAccount id => remove_account c id
  | .selectAccount id =>
    match select_account c id with
    | .ok c2 => c2
    | .error _ => c

/-- A sequence of registry mutations run from the initial state. -/
def runOps (ops : List RegOp) : InnerConfig :=
  ops.foldl regStep initConfig

/-- The registry invariant of claim C3: the selection is 0 on an empty list
and otherwise the id of some listed account, and `next_id` strictly exceeds
every listed id. -/
def RegInv (c : InnerConfig) : Prop :=
  (c.accounts = [] → c.selected_account = 0) ∧
  (c.accounts ≠ [] → ∃ a ∈ c.accounts, a.id = c.selected_account) ∧
  (∀ a ∈ c.accounts, a.id < c.next_id)

instance (c : InnerConfig) : Decidable (RegInv c) := by
  unfold RegInv; infer_instance

/-- Model of `Accounts::import_account`: remember the selection, add a fresh account
(which selects it), attempt the restore; on restore failure remove the fresh
account again, re-select the old selection, and return the restore error —
unless that final `select_account` itself fails, in which case its error is
returned instead.  The restore step is an external collaborator
(`imex::imex`), modelled by the `restoreOk` flag. -/
def import_account (restoreOk : Bool) (c : InnerConfig) :
    Except RegErr Nat × InnerConfig :=
  let old_id := c.selected_account
  let r := new_account c
  let id := r.1
  let c1 := r.2
  if restoreOk then (.ok id, c1)
  else
    let c2 := remove_account c1 id
    match select_account c2 old_id with
    | .ok c3 => (.error .restoreFailed, c3)
    | .error e => (.error e, c2)

end Registry

namespace Emitter

/-- One per-account event source (the receiving end of an account's event
channel): its buffered events, and whether the sender has been dropped. -/
structure EmitterSource where
  queue : List Nat
  disconnected : Bool
  deriving DecidableEq, Repr

/-- Model of `async_std::sync::TryRecvError`. -/
inductive TryRecvErr
  | empty
  | disconnected
  deriving DecidableEq, Repr

/-- Model of `try_recv` on a channel receiver: yields a buffered event if any,
reports `Disconnected` on an empty queue whose sender is gone, and `Empty`
otherwise. -/
def tryRecv (s : EmitterSource) : Except TryRecvErr (Nat × EmitterSource) :=
  match s.queue with
  | e :: rest => .ok (e, { s with queue := rest })
  | [] => if s.disconnected then .error .disconnected else .error .empty

/-- Model of `EmitterWrapper`: an account id, its event source, and the `done` flag. -/
structure EmitterWrapper where
  id : Nat
  emitter : EmitterSource
  done : Bool
  deriving DecidableEq, Repr

/-- An event tagged with the id of the account it came from. -/
structure AccountEvent where
  id : Nat
  event : Nat
  deriving DecidableEq, Repr

/-- Model of `EventEmitter::recv_poll`: scan the wrappers in order; skip a wrapper
whose `done` flag is set; return the first available event tagged with its
account id; on `Disconnected` the source executes `e.done.store(false)` (sic
— the stored value in the source is `false`) and the scan continues; with no
event available the poll is `Pending` (`none` here). -/
def recv_poll : List EmitterWrapper → Option AccountEvent × List EmitterWrapper
  | [] => (none, [])
  | w :: rest =>
    if w.done then
      let r := recv_poll rest
      (r.1, w :: r.2)
    else
      match tryRecv w.emitter with
      | .ok (ev, s2) => (some { id := w.id, event := ev }, { w with emitter := s2 } :: rest)
      | .error .disconnected =>
        let w2 := { w with done := false }
        let r := recv_poll rest
        (r.1, w2 :: r.2)
      | .error .empty =>
        let r := recv_poll rest
        (r.1, w :: r.2)

end Emitter

namespace Housekeeping

/-- Blob file names, modelled as character lists (Rust byte-slices the name;
for the ASCII suffixes involved the two views agree). -/
abbrev BlobName := List Char

/-- Model of `is_file_in_use`: with no suffix, a bare set lookup; with a suffix, the
name must be strictly longer than the suffix and end with it, and the name
minus the suffix must be in the set. -/
def is_file_in_use (files_in_use : List BlobName) (namespc_opt : Option BlobName)
    (name : BlobName) : Bool :=
  match namespc_opt with
  | some namespc =>
    if name.length ≤ namespc.length || !(decide (namespc <:+ name)) then false
    else files_in_use.contains (name.take (name.length - namespc.length))
  | none => files_in_use.contains name

/-- The `.increation` suffix. -/
def increationSuffix : BlobName := ".increation".data

/-- The `.waveform` suffix. -/
def waveformSuffix : BlobName := ".waveform".data

/-- The `-preview.jpg` suffix. -/
def previewSuffix : BlobName := "-preview.jpg".data

/-- The recognized derived-file suffixes, in the order housekeeping checks
them. -/
def recognizedSuffixes : List BlobName :=
  [increationSuffix, waveformSuffix, previewSuffix]

/-- The timestamps reported by `fs::metadata` for a directory entry; each of
created/modified/accessed may be unavailable on a given filesystem. -/
structure FileStats where
  created : Option Nat
  modified : Option Nat
  accessed : Option Nat
  deriving DecidableEq, Repr

/-- A blob-directory entry: its file name and the result of the metadata
call (`none` when `fs::metadata` fails). -/
structure DirEntry where
  name : BlobName
  stats : Option FileStats
  deriving DecidableEq, Repr

/-- The per-entry decision of the housekeeping sweep: an entry is kept when
its name (bare or minus a recognized suffix) is in the in-use set, or when
metadata is available and reports a creation/modification/access time newer
than `keep_files_newer_than`; otherwise it is deleted. -/
def housekeeping_deletes (files_in_use : List BlobName) (keep_files_newer_than : Nat)
    (e : DirEntry) : Bool :=
  if is_file_in_use files_in_use none e.name
      || is_file_in_use files_in_use (some increationSuffix) e.name
      || is_file_in_use files_in_use (some waveformSuffix) e.name
      || is_file_in_use files_in_use (some previewSuffix) e.name then
    false
  else
    match e.stats with
    | some stats =>
      let recently_created := stats.created.any (fun t => keep_files_newer_than < t)
      let recently_modified := stats.modified.any (fun t => keep_files_newer_than < t)
      let recently_accessed := stats.accessed.any (fun t => keep_files_newer_than < t)
      if recently_created || recently_modified || recently_accessed then false else true
    | none => true

/-- The names deleted by one housekeeping sweep over a directory listing. -/
def housekeeping_deleted (files_in_use : List BlobName) (keep_files_newer_than : Nat)
    (entries : List DirEntry) : List BlobName :=
  (entries.filter (housekeeping_deletes files_in_use keep_files_newer_than)).map
    (fun e => e.name)

end Housekeeping

namespace OpenModel

/-- The failure cases of the two open phases: `SqlAlreadyOpen`; r2d2 pool
construction failure; a migration/fixup error in the first phase; sqlx pool
connection failure; a migration/fixup error in the second phase. -/
inductive OpenErr
  | alreadyOpen
  | poolBuild
  | migrate1
  | connect2
  | migrate2
  deriving DecidableEq, Repr

/-- The pool state of one `Sql` handle: whether the rusqlite (`pool`) and
sqlx (`sql`) pools are attached. -/
structure SqlHandle where
  pool : Bool
  sql : Bool
  deriving DecidableEq, Repr

/-- Model of `Sql::is_open`: both pools attached. -/
def is_open (h : SqlHandle) : Bool := h.pool && h.sql

/-- Model of `Sql::close`: drop both pools. -/
def close (_h : SqlHandle) : SqlHandle := { pool := false, sql := false }

/-- Which sub-operations of an open call fail, injected as a fault model
(the underlying engine and filesystem are external collaborators). -/
structure OpenEnv where
  readonly : Bool
  poolBuildFail : Bool
  migrate1Fail : Bool
  connect2Fail : Bool
  migrate2Fail : Bool
  deriving DecidableEq, Repr

/-- The free function `open` (first phase): `SqlAlreadyOpen` if the handle is
open; build the r2d2 pool (failure surfaces before anything is attached);
attach it; if writable, run migrations and fixups (failure surfaces with the
pool still attached — the caller `Sql::open` is responsible for cleanup). -/
def openInner (env : OpenEnv) (h : SqlHandle) : Except OpenErr Unit × SqlHandle :=
  if is_open h then (.error .alreadyOpen, h)
  else if env.poolBuildFail then (.error .poolBuild, h)
  else
    let h1 := { h with pool := true }
    if !env.readonly && env.migrate1Fail then (.error .migrate1, h1)
    else (.ok (), h1)

/-- The free function `open2` (second phase): `SqlAlreadyOpen` if the handle
is open; connect the sqlx pool (failure surfaces before it is attached);
attach it; if writable, run migrations and fixups. -/
def open2 (env : OpenEnv) (h : SqlHandle) : Except OpenErr Unit × SqlHandle :=
  if is_open h then (.error .alreadyOpen, h)
  else if env.connect2Fail then (.error .connect2, h)
  else
    let h1 := { h with sql := true }
    if !env.readonly && env.migrate2Fail then (.error .migrate2, h1)
    else (.ok (), h1)

/-- Model of `Sql::open`: run the first phase; on a non-`AlreadyOpen` error close the
handle before surfacing the error (the source wraps it in a message string;
the error kind models the underlying cause); on success run `open2`, whose
error — if any — is propagated with `?` and *without* any cleanup. -/
def sqlOpen (env : OpenEnv) (h : SqlHandle) : Except OpenErr Unit × SqlHandle :=
  match openInner env h with
  | (.error e, h1) =>
    if e = .alreadyOpen then (.error e, h1)
    else (.error e, close h1)
  | (.ok _, h1) => open2 env h1

end OpenModel

namespace Migrations

/-- One write performed by the migration runner: a schema/data SQL statement
(`sql.execute`) or a config-row write (`sql.set_raw_config_int`). -/
inductive Write
  | stmt (sql : String)
  | cfg (key : String) (value : Int)
  deriving DecidableEq, Repr

/-- The database state threaded through the migration runner: the integer
config rows the runner reads and writes (an association list, most entries
unique by upsert), and the chronological log of all writes performed. -/
structure MigState where
  config : List (String × Int)
  writes : List Write
  deriving DecidableEq, Repr

/-- Model of `sql.execute(statement)`: an opaque schema/data write, logged. -/
def execute (s : String) (st : MigState) : MigState :=
  { st with writes := st.writes ++ [Write.stmt s] }

/-- Model of `sql.set_raw_config_int(key, v)`: check-then-act upsert on the config
table, logged as a config write. -/
def setRawConfigInt (k : String) (v : Int) (st : MigState) : MigState :=
  let cfg :=
    if st.config.any (fun p => p.1 == k) then
      st.config.map (fun p => if p.1 == k then (p.1, v) else p)
    else st.config ++ [(k, v)]
  { config := cfg, writes := st.writes ++ [Write.cfg k v] }

/-- Model of `sql.get_raw_config_int(key)`. -/
def getRawConfigInt (st : MigState) (k : String) : Option Int :=
  (st.config.find? (fun p => p.1 == k)).map (fun p => p.2)

/-- Value of `ShowEmails::All as i32` (from `crate::constants`, outside the visible
sources; the spec only says the step backfills the legacy-compatible value). -/
def showEmailsAll : Int := 2

/-- The loop body of migration v67 for one of the prefixes "" and
"configured_": reinterpret the legacy `server_flags` bitmask into the
`mail_security` / `send_security` enumerations. -/
def step67do (pfx : String) (st : MigState) : MigState :=
  match getRawConfigInt st (pfx ++ "server_flags") with
  | none => st
  | some server_flags =>
    let imap_socket_flags := Int.land server_flags 0x700
    let st :=
      if imap_socket_flags = 0x100 then setRawConfigInt (pfx ++ "mail_security") 2 st
      else if imap_socket_flags = 0x200 then setRawConfigInt (pfx ++ "mail_security") 1 st
      else if imap_socket_flags = 0x400 then setRawConfigInt (pfx ++ "mail_security") 3 st
      else setRawConfigInt (pfx ++ "mail_security") 0 st
    let smtp_socket_flags := Int.land server_flags 0x70000
    if smtp_socket_flags = 0x10000 then setRawConfigInt (pfx ++ "send_security") 2 st
    else if smtp_socket_flags = 0x20000 then setRawConfigInt (pfx ++ "send_security") 1 st
    else if smtp_socket_flags = 0x40000 then setRawConfigInt (pfx ++ "send_security") 3 st
    else setRawConfigInt (pfx ++ "send_security") 0 st

/-- The body of the migration step gated at checkpoint `n` (the statements of
`migrations::run`, success path), ending with the persist of `dbversion = n`.
Steps 50 and 59 additionally depend on the pre-existence flag `ex`. -/
def applyStep (ex : Bool) (st : MigState) (n : Int) : MigState :=
  if n = 1 then
    setRawConfigInt "dbversion" 1
      (execute "CREATE INDEX leftgrps_index1 ON leftgrps (grpid);"
        (execute "CREATE TABLE leftgrps ( id INTEGER PRIMARY KEY, grpid TEXT DEFAULT \x27\x27);" st))
  else if n = 2 then
    setRawConfigInt "dbversion" 2
      (execute "ALTER TABLE contacts ADD COLUMN authname TEXT DEFAULT \x27\x27;" st)
  else if n = 7 then
    setRawConfigInt "dbversion" 7
      (execute "CREATE TABLE keypairs (id INTEGER PRIMARY KEY, addr TEXT DEFAULT \x27\x27 COLLATE NOCASE, is_default INTEGER DEFAULT 0, private_key, public_key, created INTEGER DEFAULT 0);" st)
  else if n = 10 then
    setRawConfigInt "dbversion" 10
      (execute "CREATE INDEX acpeerstates_index1 ON acpeerstates (addr);"
        (execute "CREATE TABLE acpeerstates (id INTEGER PRIMARY KEY, addr TEXT DEFAULT \x27\x27 COLLATE NOCASE, last_seen INTEGER DEFAULT 0, last_seen_autocrypt INTEGER DEFAULT 0, public_key, prefer_encrypted INTEGER DEFAULT 0);" st))
  else if n = 12 then
    setRawConfigInt "dbversion" 12
      (execute "CREATE INDEX msgs_mdns_index1 ON msgs_mdns (msg_id);"
        (execute "CREATE TABLE msgs_mdns ( msg_id INTEGER,  contact_id INTEGER);" st))
  else if n = 17 then
    setRawConfigInt "dbversion" 17
      (execute "CREATE INDEX msgs_index5 ON msgs (starred);"
        (execute "ALTER TABLE msgs ADD COLUMN starred INTEGER DEFAULT 0;"
          (execute "CREATE INDEX chats_index2 ON chats (archived);"
            (execute "ALTER TABLE chats ADD COLUMN archived INTEGER DEFAULT 0;" st))))
  else if n = 18 then
    setRawConfigInt "dbversion" 18
      (execute "ALTER TABLE acpeerstates ADD COLUMN gossip_key;"
        (execute "ALTER TABLE acpeerstates ADD COLUMN gossip_timestamp INTEGER DEFAULT 0;" st))
  else if n = 27 then
    setRawConfigInt "dbversion" 27
      (execute "ALTER TABLE msgs ADD COLUMN timestamp_rcvd INTEGER DEFAULT 0;"
        (execute "ALTER TABLE msgs ADD COLUMN timestamp_sent INTEGER DEFAULT 0;"
          (execute "CREATE INDEX chats_contacts_index2 ON chats_contacts (contact_id);"
            (execute "DELETE FROM msgs WHERE chat_id=1 OR chat_id=2;" st))))
  else if n = 34 then
    setRawConfigInt "dbversion" 34
      (execute "CREATE INDEX acpeerstates_index4 ON acpeerstates (gossip_key_fingerprint);"
        (execute "CREATE INDEX acpeerstates_index3 ON acpeerstates (public_key_fingerprint);"
          (execute "ALTER TABLE acpeerstates ADD COLUMN gossip_key_fingerprint TEXT DEFAULT \x27\x27;"
            (execute "ALTER TABLE acpeerstates ADD COLUMN public_key_fingerprint TEXT DEFAULT \x27\x27;"
              (execute "ALTER TABLE msgs_mdns ADD COLUMN timestamp_sent INTEGER DEFAULT 0;"
                (execute "ALTER TABLE msgs ADD COLUMN hidden INTEGER DEFAULT 0;" st))))))
  else if n = 39 then
    setRawConfigInt "dbversion" 39
      (execute "CREATE INDEX acpeerstates_index5 ON acpeerstates (verified_key_fingerprint);"
        (execute "ALTER TABLE acpeerstates ADD COLUMN verified_key_fingerprint TEXT DEFAULT \x27\x27;"
          (execute "ALTER TABLE acpeerstates ADD COLUMN verified_key;"
            (execute "CREATE TABLE tokens ( id INTEGER PRIMARY KEY, namespc INTEGER DEFAULT 0, foreign_id INTEGER DEFAULT 0, token TEXT DEFAULT \x27\x27, timestamp INTEGER DEFAULT 0);" st))))
  else if n = 40 then
    setRawConfigInt "dbversion" 40
      (execute "ALTER TABLE jobs ADD COLUMN thread INTEGER DEFAULT 0;" st)
  else if n = 44 then
    setRawConfigInt "dbversion" 44
      (execute "ALTER TABLE msgs ADD COLUMN mime_headers TEXT;" st)
  else if n = 46 then
    setRawConfigInt "dbversion" 46
      (execute "ALTER TABLE msgs ADD COLUMN mime_references TEXT;"
        (execute "ALTER TABLE msgs ADD COLUMN mime_in_reply_to TEXT;" st))
  else if n = 47 then
    setRawConfigInt "dbversion" 47
      (execute "ALTER TABLE jobs ADD COLUMN tries INTEGER DEFAULT 0;" st)
  else if n = 48 then
    setRawConfigInt "dbversion" 48
      (execute "ALTER TABLE msgs ADD COLUMN move_state INTEGER DEFAULT 1;" st)
  else if n = 49 then
    setRawConfigInt "dbversion" 49
      (execute "ALTER TABLE chats ADD COLUMN gossiped_timestamp INTEGER DEFAULT 0;" st)
  else if n = 50 then
    setRawConfigInt "dbversion" 50
      (if ex then setRawConfigInt "show_emails" showEmailsAll st else st)
  else if n = 53 then
    setRawConfigInt "dbversion" 53
      (execute "CREATE INDEX chats_index3 ON chats (locations_send_until);"
        (execute "ALTER TABLE chats ADD COLUMN locations_last_sent INTEGER DEFAULT 0;"
          (execute "ALTER TABLE chats ADD COLUMN locations_send_until INTEGER DEFAULT 0;"
            (execute "ALTER TABLE chats ADD COLUMN locations_send_begin INTEGER DEFAULT 0;"
              (execute "CREATE INDEX locations_index2 ON locations (timestamp);"
                (execute "CREATE INDEX locations_index1 ON locations (from_id);"
                  (execute "CREATE TABLE locations ( id INTEGER PRIMARY KEY AUTOINCREMENT, latitude REAL DEFAULT 0.0, longitude REAL DEFAULT 0.0, accuracy REAL DEFAULT 0.0, timestamp INTEGER DEFAULT 0, chat_id INTEGER DEFAULT 0, from_id INTEGER DEFAULT 0);" st)))))))
  else if n = 54 then
    setRawConfigInt "dbversion" 54
      (execute "CREATE INDEX msgs_index6 ON msgs (location_id);"
        (execute "ALTER TABLE msgs ADD COLUMN location_id INTEGER DEFAULT 0;" st))
  else if n = 55 then
    setRawConfigInt "dbversion" 55
      (execute "ALTER TABLE locations ADD COLUMN independent INTEGER DEFAULT 0;" st)
  else if n = 59 then
    setRawConfigInt "dbversion" 59
      (let st :=
        (execute "CREATE INDEX devmsglabels_index1 ON devmsglabels (label);"
          (execute "CREATE TABLE devmsglabels (id INTEGER PRIMARY KEY AUTOINCREMENT, label TEXT, msg_id INTEGER DEFAULT 0);" st))
      if ex && (getRawConfigInt st "bcc_self").isNone then
        setRawConfigInt "bcc_self" 1 st
      else st)
  else if n = 60 then
    setRawConfigInt "dbversion" 60
      (execute "ALTER TABLE chats ADD COLUMN created_timestamp INTEGER DEFAULT 0;" st)
  else if n = 61 then
    setRawConfigInt "dbversion" 61
      (execute "ALTER TABLE contacts ADD COLUMN selfavatar_sent INTEGER DEFAULT 0;" st)
  else if n = 62 then
    setRawConfigInt "dbversion" 62
      (execute "ALTER TABLE chats ADD COLUMN muted_until INTEGER DEFAULT 0;" st)
  else if n = 63 then
    setRawConfigInt "dbversion" 63
      (execute "UPDATE chats SET grpid=\x27\x27 WHERE type=100" st)
  else if n = 64 then
    setRawConfigInt "dbversion" 64
      (execute "ALTER TABLE msgs ADD COLUMN error TEXT DEFAULT \x27\x27;" st)
  else if n = 65 then
    setRawConfigInt "dbversion" 65
      (execute "ALTER TABLE msgs ADD COLUMN ephemeral_timestamp INTEGER DEFAULT 0"
        (execute "ALTER TABLE msgs ADD COLUMN ephemeral_timer INTEGER DEFAULT 0"
          (execute "ALTER TABLE chats ADD COLUMN ephemeral_timer INTEGER" st)))
  else if n = 66 then
    setRawConfigInt "dbversion" 66 st
  else if n = 67 then
    setRawConfigInt "dbversion" 67 (step67do "configured_" (step67do "" st))
  else if n = 68 then
    setRawConfigInt "dbversion" 68
      (execute "CREATE INDEX IF NOT EXISTS msgs_index7 ON msgs (state, hidden, chat_id);" st)
  else if n = 69 then
    setRawConfigInt "dbversion" 69
      (execute "UPDATE chats SET protected=1, type=120 WHERE type=130;"
        (execute "ALTER TABLE chats ADD COLUMN protected INTEGER DEFAULT 0;" st))
  else st

/-- The declared migration checkpoints, in source order. -/
def checkpoints : List Int :=
  [1, 2, 7, 10, 12, 17, 18, 27, 34, 39, 40, 44, 46, 47, 48, 49, 50, 53, 54, 55,
   59, 60, 61, 62, 63, 64, 65, 66, 67, 68, 69]

/-- Model of `migrations::run` (success path): the literal chain of version-gated
steps.  The local `dbversion` is reassigned to 46 inside the v46 gate, as in
the source; `recalc_fingerprints` is set by the v34 step and `update_icons`
starts as the negated pre-existence flag and is set by the v61 and v66 steps.
Returns the final database state and the two flags. -/
def run (dbversion_before_update : Int) (exists_before_update : Bool) (st : MigState) :
    MigState × Bool × Bool :=
  let dbversion := dbversion_before_update
  let ex := exists_before_update
  let update_icons := !exists_before_update
  let st := if dbversion < 1 then applyStep ex st 1 else st
  let st := if dbversion < 2 then applyStep ex st 2 else st
  let st := if dbversion < 7 then applyStep ex st 7 else st
  let st := if dbversion < 10 then applyStep ex st 10 else st
  let st := if dbversion < 12 then applyStep ex st 12 else st
  let st := if dbversion < 17 then applyStep ex st 17 else st
  let st := if dbversion < 18 then applyStep ex st 18 else st
  let st := if dbversion < 27 then applyStep ex st 27 else st
  let recalc_fingerprints := decide (dbversion < 34)
  let st := if dbversion < 34 then applyStep ex st 34 else st
  let st := if dbversion < 39 then applyStep ex st 39 else st
  let st := if dbversion < 40 then applyStep ex st 40 else st
  let st := if dbversion < 44 then applyStep ex st 44 else st
  let st := if dbversion < 46 then applyStep ex st 46 else st
  let dbversion := if dbversion < 46 then (46 : Int) else dbversion
  let st := if dbversion < 47 then applyStep ex st 47 else st
  let st := if dbversion < 48 then applyStep ex st 48 else st
  let st := if dbversion < 49 then applyStep ex st 49 else st
  let st := if dbversion < 50 then applyStep ex st 50 else st
  let st := if dbversion < 53 then applyStep ex st 53 else st
  let st := if dbversion < 54 then applyStep ex st 54 else st
  let st := if dbversion < 55 then applyStep ex st 55 else st
  let st := if dbversion < 59 then applyStep ex st 59 else st
  let st := if dbversion < 60 then applyStep ex st 60 else st
  let update_icons := if dbversion < 61 then true else update_icons
  let st := if dbversion < 61 then applyStep ex st 61 else st
  let st := if dbversion < 62 then applyStep ex st 62 else st
  let st := if dbversion < 63 then applyStep ex st 63 else st
  let st := if dbversion < 64 then applyStep ex st 64 else st
  let st := if dbversion < 65 then applyStep ex st 65 else st
  let update_icons := if dbversion < 66 then true else update_icons
  let st := if dbversion < 66 then applyStep ex st 66 else st
  let st := if dbversion < 67 then applyStep ex st 67 else st
  let st := if dbversion < 68 then applyStep ex st 68 else st
  let st := if dbversion < 69 then applyStep ex st 69 else st
  (st, recalc_fingerprints, update_icons)

end Migrations

/-! ## Theorems -/

namespace RowId

/-- The head of a descendingly sorted list (with default 0) bounds every
element of the list. -/
theorem le_head_sort_of_mem {l : List Int} {x : Int} (hx : x ∈ l) :
    x ≤ ((l.insertionSort (fun a b => b ≤ a)).head?).getD 0 := by
  have hmem : x ∈ l.insertionSort (fun a b => b ≤ a) :=
    (List.perm_insertionSort _ l).mem_iff.mpr hx
  have hsorted : List.Sorted (fun a b => b ≤ a) (l.insertionSort (fun a b => b ≤ a)) :=
    List.sorted_insertionSort _ l
  cases hs : l.insertionSort (fun a b => b ≤ a) with
  | nil => simp [hs] at hmem
  | cons a t =>
    rw [hs] at hmem hsorted
    rcases List.mem_cons.mp hmem with h | h
    · simp [h]
    · have := (List.sorted_cons.mp hsorted).1 x h
      simpa using this

/-- The head of the descending sort of a nonempty list (with default 0) is an
element of the list. -/
theorem head_sort_mem {l : List Int} (hne : l ≠ []) :
    ((l.insertionSort (fun a b => b ≤ a)).head?).getD 0 ∈ l := by
  cases hs : l.insertionSort (fun a b => b ≤ a) with
  | nil =>
    have := (List.perm_insertionSort (fun a b => b ≤ a) l).symm.length_eq
    rw [hs] at this
    cases l with
    | nil => exact absurd rfl hne
    | cons a t => simp at this
  | cons a t =>
    have ha : a ∈ l.insertionSort (fun a b => b ≤ a) := by
      rw [hs]; exact List.mem_cons_self a t
    have hmem := (List.perm_insertionSort (fun a b => b ≤ a) l).mem_iff.mp ha
    simpa [hs] using hmem

/-- C7: on an open store, `get_rowid` and `get_rowid2` return the maximum id
among the rows matching the equality predicate(s) — every matching row's id
is bounded by the returned id, and the returned id is itself the id of a
matching row. -/
theorem get_rowid_returns_max :
    (∀ (table : List RowStr) (value : String),
      get_rowid true table value = .ok (rowid_val table value)) ∧
    (∀ (table : List RowStr) (value : String) (r : RowStr),
      r ∈ table → r.field = value →
        r.id ≤ rowid_val table value ∧
        ∃ r2 ∈ table, r2.field = value ∧ r2.id = rowid_val table value) ∧
    (∀ (table : List RowInt2) (value value2 : Int),
      get_rowid2 true table value value2 = .ok (rowid2_val table value value2)) ∧
    (∀ (table : List RowInt2) (value value2 : Int) (r : RowInt2),
      r ∈ table → r.field = value → r.field2 = value2 →
        r.id ≤ rowid2_val table value value2 ∧
        ∃ r2 ∈ table, r2.field = value ∧ r2.field2 = value2 ∧
          r2.id = rowid2_val table value value2) := by
  refine ⟨fun table value => rfl, ?_, fun table value value2 => rfl, ?_⟩
  · intro table value r hr hf
    have hrf : r ∈ table.filter (fun r => r.field == value) := by
      rw [List.mem_filter]
      exact ⟨hr, by simp [hf]⟩
    have hid : r.id ∈ (table.filter (fun r => r.field == value)).map (fun r => r.id) :=
      List.mem_map_of_mem _ hrf
    constructor
    · exact le_head_sort_of_mem hid
    · have hne : (table.filter (fun r => r.field == value)).map (fun r => r.id) ≠ [] :=
        List.ne_nil_of_mem hid
      have hmem := head_sort_mem hne
      rw [List.mem_map] at hmem
      obtain ⟨r2, hr2, hr2id⟩ := hmem
      rw [List.mem_filter] at hr2
      exact ⟨r2, hr2.1, by simpa using hr2.2, hr2id⟩
  · intro table value value2 r hr hf hf2
    have hrf : r ∈ table.filter (fun r => r.field == value && r.field2 == value2) := by
      rw [List.mem_filter]
      exact ⟨hr, by simp [hf, hf2]⟩
    have hid : r.id ∈
        (table.filter (fun r => r.field == value && r.field2 == value2)).map (fun r => r.id) :=
      List.mem_map_of_mem _ hrf
    constructor
    · exact le_head_sort_of_mem hid
    · have hne : (table.filter (fun r => r.field == value && r.field2 == value2)).map
          (fun r => r.id) ≠ [] :=
        List.ne_nil_of_mem hid
      have hmem := head_sort_mem hne
      rw [List.mem_map] at hmem
      obtain ⟨r2, hr2, hr2id⟩ := hmem
      rw [List.mem_filter] at hr2
      have hp := hr2.2
      simp only [Bool.and_eq_true, beq_iff_eq] at hp
      exact ⟨r2, hr2.1, hp.1, hp.2, hr2id⟩

/-- Witness for C7 at a concrete two-row table. -/
theorem get_rowid_returns_max_witness :
    (RowStr.mk 1 "a") ∈ [RowStr.mk 1 "a", RowStr.mk 3 "a"] ∧
    (RowStr.mk 1 "a").field = "a" ∧
    ((RowStr.mk 1 "a").id ≤ rowid_val [RowStr.mk 1 "a", RowStr.mk 3 "a"] "a" ∧
      ∃ r2 ∈ [RowStr.mk 1 "a", RowStr.mk 3 "a"], r2.field = "a" ∧
        r2.id = rowid_val [RowStr.mk 1 "a", RowStr.mk 3 "a"] "a") :=
  ⟨by decide, by decide,
    get_rowid_returns_max.2.1 [RowStr.mk 1 "a", RowStr.mk 3 "a"] "a" (RowStr.mk 1 "a")
      (by decide) (by decide)⟩

/-- C9: on an open store, when no row matches the predicate(s), `get_rowid`
and `get_rowid2` return `Ok(0)` rather than an error or an absent result. -/
theorem get_rowid_no_match_is_ok_zero :
    (∀ (table : List RowStr) (value : String),
      (∀ r ∈ table, r.field ≠ value) → get_rowid true table value = .ok 0) ∧
    (∀ (table : List RowInt2) (value value2 : Int),
      (∀ r ∈ table, ¬(r.field = value ∧ r.field2 = value2)) →
        get_rowid2 true table value value2 = .ok 0) := by
  constructor
  · intro table value h
    have hfil : table.filter (fun r => r.field == value) = [] := by
      rw [List.filter_eq_nil_iff]
      intro r hr
      simp [h r hr]
    simp [get_rowid, rowid_val, hfil]
  · intro table value value2 h
    have hfil : table.filter (fun r => r.field == value && r.field2 == value2) = [] := by
      rw [List.filter_eq_nil_iff]
      intro r hr
      have := h r hr
      simp only [Bool.and_eq_true, beq_iff_eq, not_and]
      intro h1 h2
      exact this ⟨h1, h2⟩
    simp [get_rowid2, rowid2_val, hfil]

/-- Witness for C9 at a concrete non-matching table. -/
theorem get_rowid_no_match_is_ok_zero_witness :
    (∀ r ∈ [RowStr.mk 1 "a"], r.field ≠ "b") ∧
    get_rowid true [RowStr.mk 1 "a"] "b" = .ok 0 :=
  ⟨by decide, get_rowid_no_match_is_ok_zero.1 [RowStr.mk 1 "a"] "b" (by decide)⟩

end RowId

namespace ConfigStore

/-- The upsert leaves the first row with the written key holding exactly the
written value. -/
theorem find?_upsert (l : List (String × String)) (k v : String) :
    (upsert l k v).find? (fun p => p.1 == k) = some (k, v) := by
  unfold upsert
  by_cases hA : l.any (fun p => p.1 == k) = true
  · rw [if_pos hA]
    induction l with
    | nil => simp at hA
    | cons a t ih =>
      by_cases ha : (a.1 == k) = true
      · have hak : a.1 = k := by simpa using ha
        simp [ha, hak]
      · have hA2 : t.any (fun p => p.1 == k) = true := by
          simpa [List.any_cons, ha] using hA
        rw [List.map_cons, if_neg ha, List.find?_cons_of_neg _ (by simpa using ha)]
        exact ih hA2
  · rw [if_neg hA]
    induction l with
    | nil => simp
    | cons a t ih =>
      cases ha : (a.1 == k) with
      | true => exact absurd (by simp [List.any_cons, ha]) hA
      | false =>
        have hA2 : ¬ t.any (fun p => p.1 == k) = true := by
          intro hc
          exact hA (by simp [List.any_cons, hc])
        have := ih hA2
        simpa [ha] using this

/-- Deleting a key makes it absent for `find?`. -/
theorem find?_delete (l : List (String × String)) (k : String) :
    (l.filter (fun p => !(p.1 == k))).find? (fun p => p.1 == k) = none := by
  rw [List.find?_eq_none]
  intro x hx
  rw [List.mem_filter] at hx
  simpa using hx.2

/-- A key whose raw value is absent reads back as `false` through
`get_raw_config_bool`. -/
theorem bool_of_absent (t : SqlState) (key : String)
    (hget : get_raw_config t key = .ok none) :
    get_raw_config_bool t key = .ok false := by
  unfold get_raw_config_bool get_raw_config_int
  rw [hget]
  rfl

/-- C8 counterexample: the claim quantifies over *every* key on an open
store, but for the empty key the read path fails with `SqlNoConnection`
(see C10) instead of returning `Ok(false)` for an absent key. -/
theorem bool_config_empty_key_counterexample :
    get_raw_config_bool { is_open := true, config := [] } "" ≠ Except.ok false := by
  intro h
  exact Except.noConfusion h

/-- C8 (amended to nonempty keys): on an open store,
`set_raw_config_bool(key, true)` stores the string "1" under the key,
`set_raw_config_bool(key, false)` deletes the key so the raw value is absent
afterwards, reading an absent key through `get_raw_config_bool` yields
`false`, and in particular setting `true` then `false` then reading yields
`false`. -/
theorem bool_config_roundtrip (s : SqlState) (key : String)
    (hopen : s.is_open = true) (hkey : key ≠ "") :
    ∃ s1 s2 : SqlState,
      set_raw_config_bool s key true = .ok s1 ∧
      get_raw_config s1 key = .ok (some "1") ∧
      set_raw_config_bool s1 key false = .ok s2 ∧
      get_raw_config s2 key = .ok none ∧
      get_raw_config_bool s2 key = .ok false ∧
      (∀ t : SqlState, get_raw_config t key = .ok none →
        get_raw_config_bool t key = .ok false) := by
  have hkE : key.isEmpty = false := by
    cases h : key.isEmpty with
    | true => exact absurd ((String.isEmpty_iff key).mp h) hkey
    | false => rfl
  refine ⟨{ s with config := upsert s.config key "1" },
    { s with config := (upsert s.config key "1").filter (fun p => !(p.1 == key)) },
    ?_, ?_, ?_, ?_, ?_, ?_⟩
  · simp [set_raw_config_bool, set_raw_config, hopen]
  · simp [get_raw_config, hopen, hkE, find?_upsert]
  · simp [set_raw_config_bool, set_raw_config, hopen]
  · simp [get_raw_config, hopen, hkE, find?_delete]
  · apply bool_of_absent
    simp [get_raw_config, hopen, hkE, find?_delete]
  · intro t hget
    exact bool_of_absent t key hget

/-- Witness for C8 (amended) at a concrete open store and key. -/
theorem bool_config_roundtrip_witness :
    ∃ s1 s2 : SqlState,
      set_raw_config_bool { is_open := true, config := [] } "k" true = .ok s1 ∧
      get_raw_config s1 "k" = .ok (some "1") ∧
      set_raw_config_bool s1 "k" false = .ok s2 ∧
      get_raw_config s2 "k" = .ok none ∧
      get_raw_config_bool s2 "k" = .ok false ∧
      (∀ t : SqlState, get_raw_config t "k" = .ok none →
        get_raw_config_bool t "k" = .ok false) :=
  bool_config_roundtrip { is_open := true, config := [] } "k" rfl (by decide)

/-- C10: `get_raw_config` with the empty key fails with `SqlNoConnection`
even on an open store, and each typed getter built on it fails the same
way. -/
theorem get_raw_config_empty_key_no_connection (s : SqlState)
    (_hopen : s.is_open = true) :
    get_raw_config s "" = .error .noConnection ∧
    get_raw_config_int s "" = .error .noConnection ∧
    get_raw_config_int64 s "" = .error .noConnection ∧
    get_raw_config_bool s "" = .error .noConnection := by
  have hE : "".isEmpty = true := rfl
  have h1 : get_raw_config s "" = .error .noConnection := by
    simp [get_raw_config, hE]
  refine ⟨h1, ?_, ?_, ?_⟩
  · simp [get_raw_config_int, h1, Except.map]
  · simp [get_raw_config_int64, h1, Except.map]
  · simp [get_raw_config_bool, get_raw_config_int, h1, Except.map]

/-- Witness for C10 at a concrete open store. -/
theorem get_raw_config_empty_key_no_connection_witness :
    get_raw_config { is_open := true, config := [] } "" = .error .noConnection ∧
    get_raw_config_int { is_open := true, config := [] } "" = .error .noConnection ∧
    get_raw_config_int64 { is_open := true, config := [] } "" = .error .noConnection ∧
    get_raw_config_bool { is_open := true, config := [] } "" = .error .noConnection :=
  get_raw_config_empty_key_no_connection { is_open := true, config := [] } rfl

end ConfigStore

namespace Emitter

/-- C5 (bug evaluation): a source that reports `Disconnected` is *not*
marked exhausted — `recv_poll` executes `done.store(false)` on the
`Disconnected` branch, so the wrapper's `done` flag stays `false`, the state
is unchanged, and the same source is scanned again on every subsequent poll
instead of being skipped. -/
theorem recv_poll_disconnected_source_not_marked :
    recv_poll [{ id := 7, emitter := { queue := [], disconnected := true }, done := false }] =
      (none, [{ id := 7, emitter := { queue := [], disconnected := true }, done := false }]) ∧
    (recv_poll [{ id := 7, emitter := { queue := [], disconnected := true }, done := false }]).2.all
      (fun w => w.done = false) = true := by
  constructor
  · rfl
  · rfl

end Emitter

namespace OpenModel

/-- C2 (bug evaluation): on a fully closed handle, when the second open
phase (`open2`) fails to connect its pool, `Sql::open` surfaces that error —
which is not the already-open case — while the rusqlite pool attached by the
first phase is still attached: the handle is not fully closed when the error
is surfaced. -/
theorem sql_open_phase2_failure_leaves_pool_attached :
    sqlOpen
        { readonly := false, poolBuildFail := false, migrate1Fail := false,
          connect2Fail := true, migrate2Fail := false }
        { pool := false, sql := false } =
      (.error .connect2, { pool := true, sql := false }) ∧
    OpenErr.connect2 ≠ OpenErr.alreadyOpen ∧
    ({ pool := true, sql := false } : SqlHandle) ≠ { pool := false, sql := false } := by
  refine ⟨rfl, by decide, by decide⟩

end OpenModel

namespace Registry

/-- Closed form of `new_account`: the `expect`ed select of the freshly added
id always succeeds. -/
theorem new_account_eq (c : InnerConfig) :
    new_account c = (c.next_id,
      { selected_account := c.next_id, next_id := c.next_id + 1,
        accounts := c.accounts ++ [{ id := c.next_id }] }) := by
  simp [new_account, select_account]

/-- The initial registry state satisfies the invariant. -/
theorem regInv_init : RegInv initConfig := by
  refine ⟨fun _ => rfl, fun h => absurd rfl h, fun a ha => absurd ha (List.not_mem_nil a)⟩

/-- Every registry mutation preserves the invariant. -/
theorem regInv_step (c : InnerConfig) (h : RegInv c) (op : RegOp) :
    RegInv (regStep c op) := by
  obtain ⟨hemp, hsel, hids⟩ := h
  cases op with
  | newAccount =>
    show RegInv (new_account c).2
    rw [new_account_eq]
    refine ⟨fun hA => by simp at hA, fun _ => ⟨{ id := c.next_id }, by simp, rfl⟩, ?_⟩
    intro a ha
    rcases List.mem_append.mp ha with hm | hm
    · exact Nat.lt_trans (hids a hm) (Nat.lt_succ_self _)
    · rw [List.mem_singleton] at hm
      rw [hm]
      exact Nat.lt_succ_self _
  | removeAccount id =>
    show RegInv (remove_account c id)
    unfold remove_account
    by_cases hs : c.selected_account = id
    · rw [if_pos hs]
      refine ⟨?_, ?_, ?_⟩
      · intro hA
        have hA2 : (c.accounts.eraseP (fun e => e.id == id)) = [] := hA
        show ((c.accounts.eraseP (fun e => e.id == id)).head?.map (fun e => e.id)).getD 0 = 0
        rw [hA2]
        rfl
      · intro hne
        cases hh : (c.accounts.eraseP (fun e => e.id == id)).head? with
        | none =>
          exact absurd (List.head?_eq_none_iff.mp hh) hne
        | some a =>
          exact ⟨a, List.mem_of_mem_head? hh, by simp [hh]⟩
      · intro a ha
        exact hids a ((List.eraseP_sublist c.accounts).subset ha)
    · rw [if_neg hs]
      refine ⟨?_, ?_, ?_⟩
      · intro hA
        rcases List.eraseP_eq_nil.mp hA with hc | ⟨x, hpx, hx⟩
        · exact hemp hc
        · obtain ⟨a, ham, haid⟩ := hsel (by rw [hx]; simp)
          rw [hx, List.mem_singleton] at ham
          subst ham
          have hxid : a.id = id := by simpa using hpx
          exact absurd (by rw [← haid, hxid]) hs
      · intro hne
        have hacc : c.accounts ≠ [] := by
          intro hc
          exact hne (by simp [hc])
        obtain ⟨a, ham, haid⟩ := hsel hacc
        have hpa : ¬ ((fun e => e.id == id) a = true) := by
          intro hc
          exact hs (by rw [← haid]; exact eq_of_beq hc)
        have hmem : a ∈ c.accounts.eraseP (fun e => e.id == id) ↔ a ∈ c.accounts :=
          List.mem_eraseP_of_neg hpa
        exact ⟨a, hmem.mpr ham, haid⟩
      · intro a ha
        exact hids a ((List.eraseP_sublist c.accounts).subset ha)
  | selectAccount id =>
    show RegInv (match select_account c id with | .ok c2 => c2 | .error _ => c)
    unfold select_account
    by_cases hany : c.accounts.any (fun e => e.id == id) = true
    · rw [if_pos hany]
      obtain ⟨e, hem, heid⟩ := List.any_eq_true.mp hany
      refine ⟨?_, fun _ => ⟨e, hem, by simpa using heid⟩, hids⟩
      intro hA
      rw [hA] at hem
      exact absurd hem (List.not_mem_nil e)
    · rw [if_neg hany]
      exact ⟨hemp, hsel, hids⟩

/-- No registry mutation ever decreases `next_id`. -/
theorem next_id_le_step (c : InnerConfig) (op : RegOp) :
    c.next_id ≤ (regStep c op).next_id := by
  cases op with
  | newAccount =>
    show c.next_id ≤ (new_account c).2.next_id
    rw [new_account_eq]
    exact Nat.le_succ _
  | removeAccount id =>
    show c.next_id ≤ (remove_account c id).next_id
    unfold remove_account
    by_cases hs : c.selected_account = id
    · rw [if_pos hs]
    · rw [if_neg hs]
  | selectAccount id =>
    show c.next_id ≤ (match select_account c id with | .ok c2 => c2 | .error _ => c).next_id
    unfold select_account
    by_cases hany : c.accounts.any (fun e => e.id == id) = true
    · rw [if_pos hany]
    · rw [if_neg hany]

/-- The invariant holds after any sequence of mutations from an invariant
state. -/
theorem regInv_foldl (l : List RegOp) (c : InnerConfig) (h : RegInv c) :
    RegInv (l.foldl regStep c) := by
  induction l generalizing c with
  | nil => exact h
  | cons op t ih => exact ih (regStep c op) (regInv_step c h op)

/-- The `next_id` counter never decreases across any sequence of mutations. -/
theorem next_id_le_foldl (l : List RegOp) (c : InnerConfig) :
    c.next_id ≤ (l.foldl regStep c).next_id := by
  induction l generalizing c with
  | nil => exact Nat.le_refl _
  | cons op t ih =>
    exact Nat.le_trans (next_id_le_step c op) (ih (regStep c op))

/-- C3: after any sequence of `new_account` / `remove_account` /
`select_account` from the initial state, the registry invariant holds
(selection is 0 on an empty list and otherwise a listed id, and `next_id`
strictly exceeds every listed id); every `new_account` assigns exactly the
current `next_id`; and an id ever present in the list is strictly below every
later `next_id`, so no removed id is ever assigned again. -/
theorem config_registry_invariants :
    (∀ ops : List RegOp, RegInv (runOps ops)) ∧
    (∀ c : InnerConfig, (new_account c).1 = c.next_id) ∧
    (∀ (ops l2 : List RegOp) (i : Nat),
      (∃ a ∈ (runOps ops).accounts, a.id = i) →
        i < (l2.foldl regStep (runOps ops)).next_id) := by
  refine ⟨fun ops => regInv_foldl ops initConfig regInv_init,
    fun c => by rw [new_account_eq], ?_⟩
  intro ops l2 i hi
  obtain ⟨a, ha, hai⟩ := hi
  have h1 : RegInv (runOps ops) := regInv_foldl ops initConfig regInv_init
  have h2 : a.id < (runOps ops).next_id := h1.2.2 a ha
  have h3 := next_id_le_foldl l2 (runOps ops)
  omega

/-- Witness for C3 on a concrete run: create one account, then remove it;
its id 0 stays below the later `next_id`, so it can never be assigned
again. -/
theorem config_registry_invariants_witness :
    (∃ a ∈ (runOps [RegOp.newAccount]).accounts, a.id = 0) ∧
    0 < (([RegOp.removeAccount 0]).foldl regStep (runOps [RegOp.newAccount])).next_id :=
  ⟨by decide,
    config_registry_invariants.2.2 [RegOp.newAccount] [RegOp.removeAccount 0] 0 (by decide)⟩

/-- C4 counterexample: on a registry with one account (id 0, selected), a
failing `import_account` does *not* leave the registry exactly as it was —
the `next_id` counter stays incremented by the torn-down account. -/
theorem import_account_not_identity :
    (import_account false
        { selected_account := 0, next_id := 1, accounts := [{ id := 0 }] }).2 ≠
      { selected_account := 0, next_id := 1, accounts := [{ id := 0 }] } := by
  decide

/-- C4 (amended): on a failing restore, `import_account` removes the fresh
account again and restores the previous selection, so accounts and selection
are exactly as before the call, but `next_id` remains incremented (keeping
ids never-reused); when at least one account existed before the call the
original restore error is returned, while on a previously empty registry the
final re-select of account 0 fails and its invalid-id error is returned
instead of the restore error. -/
theorem import_account_failure_rollback (c : InnerConfig) (h : RegInv c) :
    (import_account false c).2 = { c with next_id := c.next_id + 1 } ∧
    (c.accounts ≠ [] → (import_account false c).1 = .error .restoreFailed) ∧
    (c.accounts = [] → (import_account false c).1 = .error (.invalidId 0)) := by
  obtain ⟨hemp, hsel, hids⟩ := h
  obtain ⟨sel, nid, accs⟩ := c
  simp only at hemp hsel hids
  have herase : (accs ++ [AccountEntry.mk nid]).eraseP (fun e => e.id == nid) = accs := by
    rw [List.eraseP_append_right _
      (fun b hb hpb => absurd (eq_of_beq hpb) (Nat.ne_of_lt (hids b hb)))]
    simp
  unfold import_account
  rw [new_account_eq]
  simp only [remove_account, select_account, herase, Bool.false_eq_true, if_false,
    eq_self_iff_true, if_true]
  cases accs with
  | nil =>
    have hsel0 : sel = 0 := hemp rfl
    simp only [List.any_nil, Bool.false_eq_true, if_false, List.head?_nil,
      Option.map_none, Option.getD_none]
    subst hsel0
    exact ⟨rfl, fun hne => absurd rfl hne, fun _ => rfl⟩
  | cons a t =>
    obtain ⟨e, hem, heid⟩ := hsel (List.cons_ne_nil a t)
    have hany : ((a :: t).any (fun x => x.id == sel)) = true :=
      List.any_eq_true.mpr ⟨e, hem, by simp [heid]⟩
    simp only [hany, if_true]
    exact ⟨trivial, fun _ => trivial, fun hc => absurd hc (List.cons_ne_nil a t)⟩

/-- Witness for C4 (amended) on the one-account registry. -/
theorem import_account_failure_rollback_witness :
    (import_account false
        { selected_account := 0, next_id := 1, accounts := [{ id := 0 }] }).2 =
      { selected_account := 0, next_id := 2, accounts := [{ id := 0 }] } :=
  (import_account_failure_rollback
    { selected_account := 0, next_id := 1, accounts := [{ id := 0 }] } (by decide)).1

end Registry

namespace Housekeeping

/-- If every way of reading the entry's name as `base ++ sfx` has `base`
outside the in-use set, the suffix variant of `is_file_in_use` is false. -/
theorem is_file_in_use_suffix_false (files : List BlobName) (sfx name : BlobName)
    (h : ∀ base : BlobName, base ++ sfx = name → files.contains base = false) :
    is_file_in_use files (some sfx) name = false := by
  by_cases hlen : name.length ≤ sfx.length
  · simp [is_file_in_use, hlen]
  · by_cases hsfx : sfx <:+ name
    · obtain ⟨t, ht⟩ := hsfx
      have htake : name.take (name.length - sfx.length) = t := by
        subst ht
        have hl : (t ++ sfx).length - sfx.length = t.length := by simp
        rw [hl, List.take_left]
      simp only [is_file_in_use]
      rw [if_neg (by simp [hlen]; exact ⟨t, ht⟩), htake]
      exact h t ht
    · simp [is_file_in_use, hsfx]

/-- C6: (a) a directory entry whose metadata reports a creation,
modification, or access time inside the grace window is never deleted by
housekeeping; (b) an entry that is unreferenced — its bare name is not in
the in-use set and neither is the name minus any recognized suffix — and
all of whose reported times are outside the window (including entries with
no readable metadata) is always deleted. -/
theorem housekeeping_grace_and_unreferenced :
    (∀ (files : List BlobName) (keep : Nat) (e : DirEntry) (st : FileStats),
      e.stats = some st →
      ((st.created.any fun t => keep < t) || (st.modified.any fun t => keep < t) ||
        (st.accessed.any fun t => keep < t)) = true →
      housekeeping_deletes files keep e = false) ∧
    (∀ (files : List BlobName) (keep : Nat) (e : DirEntry),
      files.contains e.name = false →
      (∀ sfx ∈ recognizedSuffixes, ∀ base : BlobName, base ++ sfx = e.name →
        files.contains base = false) →
      (∀ st : FileStats, e.stats = some st →
        ((st.created.any fun t => keep < t) || (st.modified.any fun t => keep < t) ||
          (st.accessed.any fun t => keep < t)) = false) →
      housekeeping_deletes files keep e = true) := by
  constructor
  · intro files keep e st hst hrec
    unfold housekeeping_deletes
    by_cases huse : (is_file_in_use files none e.name
        || is_file_in_use files (some increationSuffix) e.name
        || is_file_in_use files (some waveformSuffix) e.name
        || is_file_in_use files (some previewSuffix) e.name) = true
    · rw [if_pos huse]
    · rw [if_neg huse, hst]
      simp only [hrec, if_true]
  · intro files keep e hbare hsfx hold
    have h1 : is_file_in_use files (some increationSuffix) e.name = false :=
      is_file_in_use_suffix_false files increationSuffix e.name
        (hsfx increationSuffix (by simp [recognizedSuffixes]))
    have h2 : is_file_in_use files (some waveformSuffix) e.name = false :=
      is_file_in_use_suffix_false files waveformSuffix e.name
        (hsfx waveformSuffix (by simp [recognizedSuffixes]))
    have h3 : is_file_in_use files (some previewSuffix) e.name = false :=
      is_file_in_use_suffix_false files previewSuffix e.name
        (hsfx previewSuffix (by simp [recognizedSuffixes]))
    have h0 : is_file_in_use files none e.name = false := hbare
    unfold housekeeping_deletes
    rw [if_neg (by simp [h0, h1, h2, h3])]
    cases hst : e.stats with
    | none => rfl
    | some st =>
      have := hold st hst
      simp only [this]
      rfl

/-- Witness for C6 at concrete entries: a fresh unreferenced file is kept,
an old unreferenced one is deleted. -/
theorem housekeeping_grace_and_unreferenced_witness :
    housekeeping_deletes [] 100
      { name := "x".data, stats := some { created := some 101, modified := none, accessed := none } } = false ∧
    housekeeping_deletes [] 100
      { name := "x".data, stats := some { created := some 5, modified := none, accessed := none } } = true :=
  ⟨housekeeping_grace_and_unreferenced.1 [] 100
      { name := "x".data, stats := some { created := some 101, modified := none, accessed := none } }
      { created := some 101, modified := none, accessed := none } rfl (by decide),
    housekeeping_grace_and_unreferenced.2 [] 100
      { name := "x".data, stats := some { created := some 5, modified := none, accessed := none } }
      rfl (fun _sfx _hs _base _hb => rfl)
      (fun st hst => by cases hst; decide)⟩

end Housekeeping

namespace Migrations

/-- Folding over a filtered list is the gated fold over the whole list. -/
theorem foldl_filter_decide {α β : Type} (p : β → Prop) [DecidablePred p]
    (f : α → β → α) (l : List β) (st : α) :
    (l.filter (fun n => decide (p n))).foldl f st =
      l.foldl (fun s n => if p n then f s n else s) st := by
  induction l generalizing st with
  | nil => rfl
  | cons a t ih =>
    by_cases h : p a <;> simp [h, ih]

/-- The v46 reassignment of the local `dbversion` variable does not change
any later gate: for checkpoints of at least 47, comparing against the
reassigned value is the same as comparing against the original one. -/
theorem dbv46_reassign (v n : Int) (hn : 47 ≤ n) :
    ((if v < 46 then (46 : Int) else v) < n) = (v < n) := by
  by_cases h : v < 46
  · rw [if_pos h]
    apply propext
    constructor <;> intro _ <;> omega
  · rw [if_neg h]

/-- The runner `migrations::run` applies exactly the steps whose checkpoint exceeds the
recorded version, as a fold in checkpoint order over the filtered checkpoint
list. -/
theorem run_eq_foldl (v : Int) (ex : Bool) (st : MigState) :
    (run v ex st).1 =
      (checkpoints.filter (fun n => decide (v < n))).foldl (applyStep ex) st := by
  rw [foldl_filter_decide]
  have e47 := dbv46_reassign v 47 (by norm_num)
  have e48 := dbv46_reassign v 48 (by norm_num)
  have e49 := dbv46_reassign v 49 (by norm_num)
  have e50 := dbv46_reassign v 50 (by norm_num)
  have e53 := dbv46_reassign v 53 (by norm_num)
  have e54 := dbv46_reassign v 54 (by norm_num)
  have e55 := dbv46_reassign v 55 (by norm_num)
  have e59 := dbv46_reassign v 59 (by norm_num)
  have e60 := dbv46_reassign v 60 (by norm_num)
  have e61 := dbv46_reassign v 61 (by norm_num)
  have e62 := dbv46_reassign v 62 (by norm_num)
  have e63 := dbv46_reassign v 63 (by norm_num)
  have e64 := dbv46_reassign v 64 (by norm_num)
  have e65 := dbv46_reassign v 65 (by norm_num)
  have e66 := dbv46_reassign v 66 (by norm_num)
  have e67 := dbv46_reassign v 67 (by norm_num)
  have e68 := dbv46_reassign v 68 (by norm_num)
  have e69 := dbv46_reassign v 69 (by norm_num)
  simp only [run, checkpoints, List.foldl_cons, List.foldl_nil,
    e47, e48, e49, e50, e53, e54, e55, e59, e60, e61, e62, e63, e64, e65, e66,
    e67, e68, e69]

end Migrations

namespace Migrations

/-- Every migration step's last write is the persist of its own checkpoint
into `dbversion`. -/
theorem applyStep_persists_dbversion (n : Int) (hn : n ∈ checkpoints) (ex : Bool)
    (st : MigState) :
    ((applyStep ex st n).writes).getLast? = some (Write.cfg "dbversion" n) := by
  simp only [checkpoints] at hn
  fin_cases hn <;>
    simp [applyStep, setRawConfigInt, List.getLast?_concat]

/-- Running the migration at the highest checkpoint (69) performs zero
writes. -/
theorem run_69_no_writes (ex : Bool) (st : MigState) :
    ((run 69 ex st).1).writes = st.writes := by
  rw [run_eq_foldl]
  rfl

/-- C1: the migration runner applies exactly the steps whose checkpoint
exceeds the recorded version `v`, as an in-order fold over the filtered
checkpoint list; the checkpoint list is strictly increasing with maximum 69;
every step persists its checkpoint into `dbversion` as its final write
(before any next step begins); and running at recorded version 69 performs
zero writes. -/
theorem migrations_run_contract :
    (∀ (v : Int) (ex : Bool) (st : MigState),
      (run v ex st).1 = (checkpoints.filter (fun n => decide (v < n))).foldl (applyStep ex) st) ∧
    List.Chain' (fun a b => a < b) checkpoints ∧
    (69 : Int) ∈ checkpoints ∧
    (∀ n ∈ checkpoints, n ≤ 69) ∧
    (∀ n ∈ checkpoints, ∀ (ex : Bool) (st : MigState),
      ((applyStep ex st n).writes).getLast? = some (Write.cfg "dbversion" n)) ∧
    (∀ (ex : Bool) (st : MigState), ((run 69 ex st).1).writes = st.writes) :=
  ⟨run_eq_foldl, by norm_num [checkpoints, List.chain'_cons], by decide, by decide,
    applyStep_persists_dbversion, run_69_no_writes⟩

/-- Witness for C1: checkpoint 1 is declared, and its step on the empty
database ends by persisting `dbversion = 1`. -/
theorem migrations_run_contract_witness :
    (1 : Int) ∈ checkpoints ∧
    ((applyStep true { config := [], writes := [] } 1).writes).getLast? =
      some (Write.cfg "dbversion" 1) :=
  ⟨by decide,
    migrations_run_contract.2.2.2.2.1 1 (by decide) true { config := [], writes := [] }⟩

end Migrations
